import Mathlib

/-!
Shallow embedding of the Zoom OAuth wrapper (zoom.py).

The repository wraps the Zoom OAuth 2.0 authorization-code flow
(class ZoomOAuth) and a subset of the Zoom REST API (class ZoomAPI).
Every method builds one HTTP request and returns the raw response.

The embedding models HTTP as a pure oracle (a function from requests to
responses); every operation returns the ordered list of requests it issued
together with its result. Python exceptions raised while extracting the
access token from a JSON body are modelled with the Except monad.
-/

namespace Zoom

/-- JSON-like values, as they appear in request bodies and parsed responses. -/
inductive JValue where
  | str : String → JValue
  | num : Int → JValue
  | bool : Bool → JValue
  | obj : List (String × JValue) → JValue
  | null : JValue

/-- The Django settings the wrapper reads at class-definition time:
settings.ClientID, settings.ClientSecret and settings.Zoom_Redirect_URI. -/
structure Settings where
  ClientID : String
  ClientSecret : String
  Zoom_Redirect_URI : String

/-- HTTP verbs used by the wrapper via the requests library. -/
inductive HttpMethod where
  | get
  | post
  | put
  | delete

/-- One HTTP request as issued through the requests library: verb, URL,
header dict, query-parameter dict and optional JSON body. -/
structure Request where
  method : HttpMethod
  url : String
  headers : List (String × String)
  params : List (String × String)
  jsonBody : Option (List (String × JValue))

/-- An HTTP response: the status code and the value its json method parses to. -/
structure Response where
  status : Nat
  body : JValue

/-- The network, modelled as a pure oracle from requests to responses. -/
abbrev Net := Request → Response

/-! ## Base64 and UTF-8, as used by base64.b64encode(s.encode(...)) -/

/-- The standard Base64 alphabet. -/
def base64Alphabet : List Char :=
  "ABCDEFGHIJKLMNOPQRSTUVWXYZabcdefghijklmnopqrstuvwxyz0123456789+/".toList

/-- The Base64 digit for a 6-bit value. -/
def b64Char (n : Nat) : Char := base64Alphabet.getD n (Char.ofNat 65)

/-- Standard Base64 encoding of a byte sequence, with padding,
as computed by base64.b64encode in the source. -/
def base64Encode : List Nat → String
  | [] => ""
  | [b1] =>
      String.mk [b64Char (b1 / 4), b64Char (b1 % 4 * 16)] ++ "=="
  | [b1, b2] =>
      String.mk [b64Char (b1 / 4), b64Char (b1 % 4 * 16 + b2 / 16),
        b64Char (b2 % 16 * 4)] ++ "="
  | b1 :: b2 :: b3 :: rest =>
      String.mk [b64Char (b1 / 4), b64Char (b1 % 4 * 16 + b2 / 16),
        b64Char (b2 % 16 * 4 + b3 / 64), b64Char (b3 % 64)] ++ base64Encode rest

/-- UTF-8 encoding of one code point, as computed by str.encode in the source. -/
def utf8Char (c : Char) : List Nat :=
  let n := c.toNat
  if n < 128 then [n]
  else if n < 2048 then [192 + n / 64, 128 + n % 64]
  else if n < 65536 then [224 + n / 4096, 128 + n / 64 % 64, 128 + n % 64]
  else [240 + n / 262144, 128 + n / 4096 % 64, 128 + n / 64 % 64, 128 + n % 64]

/-- UTF-8 encoding of a string as a byte sequence. -/
def utf8Bytes (s : String) : List Nat :=
  (s.toList.map utf8Char).flatten

/-! ## ZoomOAuth -/

/-- Base URL of the Zoom OAuth endpoints, class attribute of ZoomOAuth. -/
def ZoomOAuth.auth_url : String := "https://zoom.us/oauth/"

/-- The ZoomOAuth client; its only state is the configuration it reads
from the Django settings. -/
structure ZoomOAuth where
  settings : Settings

/-- Computed in ZoomOAuth.init: the Base64 encoding of the UTF-8 bytes of
client_id, a colon, and client_secret. -/
def ZoomOAuth.id_secret_encrypted (z : ZoomOAuth) : String :=
  base64Encode (utf8Bytes (z.settings.ClientID ++ ":" ++ z.settings.ClientSecret))

/-- ZoomOAuth.request_authorization_code: builds the authorize URL by joining
key=value pairs with ampersands, exactly as the source does with str.join. -/
def ZoomOAuth.request_authorization_code (z : ZoomOAuth) : String :=
  let params := [("client_id", z.settings.ClientID),
                 ("response_type", "code"),
                 ("redirect_uri", z.settings.Zoom_Redirect_URI)]
  ZoomOAuth.auth_url ++ "authorize" ++ "?" ++
    String.intercalate "&" (params.map (fun p => String.intercalate "=" [p.1, p.2]))

/-- The header dict built identically by all three token-endpoint methods of
ZoomOAuth: form content type plus the Basic authorization credential. -/
def ZoomOAuth.oauthHeaders (z : ZoomOAuth) : List (String × String) :=
  [("Content-Type", "application/x-www-form-urlencoded"),
   ("Authorization", "Basic " ++ z.id_secret_encrypted)]

/-- The POST request issued by ZoomOAuth.get_first_token. -/
def firstTokenRequest (st : Settings) (code : String) : Request :=
  ⟨HttpMethod.post, ZoomOAuth.auth_url ++ "token",
   (ZoomOAuth.mk st).oauthHeaders,
   [("code", code), ("grant_type", "authorization_code"),
    ("redirect_uri", st.Zoom_Redirect_URI)],
   none⟩

/-- ZoomOAuth.get_first_token: POST the authorization code to the token
endpoint and return the raw response. -/
def ZoomOAuth.get_first_token (z : ZoomOAuth) (net : Net) (code : String) :
    List Request × Response :=
  let req := firstTokenRequest z.settings code
  ([req], net req)

/-- The POST request issued by ZoomOAuth.get_access_token (token refresh). -/
def tokenRequest (st : Settings) (refresh_token : String) : Request :=
  ⟨HttpMethod.post, ZoomOAuth.auth_url ++ "token",
   (ZoomOAuth.mk st).oauthHeaders,
   [("grant_type", "refresh_token"), ("refresh_token", refresh_token)],
   none⟩

/-- ZoomOAuth.get_access_token: POST the refresh token to the token endpoint
and return the raw response. -/
def ZoomOAuth.get_access_token (z : ZoomOAuth) (net : Net) (refresh_token : String) :
    List Request × Response :=
  let req := tokenRequest z.settings refresh_token
  ([req], net req)

/-- The POST request issued by ZoomOAuth.revoke_token. -/
def revokeRequest (st : Settings) (access_token : String) : Request :=
  ⟨HttpMethod.post, ZoomOAuth.auth_url ++ "revoke",
   (ZoomOAuth.mk st).oauthHeaders,
   [("token", access_token)],
   none⟩

/-- ZoomOAuth.revoke_token: POST the access token to the revoke endpoint
and return the raw response. -/
def ZoomOAuth.revoke_token (z : ZoomOAuth) (net : Net) (access_token : String) :
    List Request × Response :=
  let req := revokeRequest z.settings access_token
  ([req], net req)

/-! ## ZoomAPI

Every ZoomAPI method repeats verbatim the same pattern: construct a fresh
ZoomOAuth client, refresh the access token, subscript the parsed JSON body at
access_token, prefix the Bearer scheme, then issue one request carrying that
Authorization header and return the raw response. The subscript raises a
Python KeyError when the key is absent (as it is in a 4xx error body) and a
TypeError when the body is not a dict or the value cannot be concatenated. -/

/-- Python exceptions that the token extraction can raise. -/
inductive PyExc where
  | keyError : String → PyExc
  | typeError : PyExc

/-- Subscripting a parsed JSON value with a string key, Python style:
a missing key raises KeyError, a non-dict raises TypeError. -/
def jsonGet : JValue → String → Except PyExc JValue
  | JValue.obj fields, k =>
      match fields.lookup k with
      | some v => Except.ok v
      | none => Except.error (PyExc.keyError k)
  | _, _ => Except.error PyExc.typeError

/-- Concatenating a JSON value after a string literal, Python style:
anything but a string raises TypeError. -/
def asPyStr : JValue → Except PyExc String
  | JValue.str s => Except.ok s
  | _ => Except.error PyExc.typeError

/-- The access_token field of a parsed token-endpoint response, i.e. the
expression json subscripted at access_token in every ZoomAPI method. -/
def extractAccessToken (resp : Response) : Except PyExc String := do
  let v ← jsonGet resp.body ("access_token")
  asPyStr v

/-- Base URL of the Zoom REST API, class attribute of ZoomAPI. -/
def ZoomAPI.api_url : String := "https://api.zoom.us/v2/"

/-- The refresh-then-request pattern shared verbatim by all ZoomAPI methods:
issue the token-refresh POST, extract the access token from its JSON body
(possibly raising), then issue the resource request built from the Bearer
Authorization value and return its raw response. The first component is the
ordered list of HTTP requests issued before returning or raising. -/
def ZoomAPI.call (st : Settings) (net : Net) (refresh_token : String)
    (mk : String → Request) : List Request × Except PyExc Response :=
  match (ZoomOAuth.mk st).get_access_token net refresh_token with
  | (tr, resp) =>
      match extractAccessToken resp with
      | Except.error e => (tr, Except.error e)
      | Except.ok tok =>
          let req := mk ("Bearer " ++ tok)
          (tr ++ [req], Except.ok (net req))

/-- ZoomAPI.get_user_zak: GET users/me/zak. -/
def ZoomAPI.get_user_zak (st : Settings) (net : Net) (refresh_token : String) :
    List Request × Except PyExc Response :=
  ZoomAPI.call st net refresh_token (fun bearer =>
    ⟨HttpMethod.get, ZoomAPI.api_url ++ "users/me/zak",
     [("Authorization", bearer)], [], none⟩)

/-- ZoomAPI.create_meeting: POST users/me/meetings with the meeting fields as
JSON body. In the source the type parameter defaults to 2. -/
def ZoomAPI.create_meeting (st : Settings) (net : Net) (refresh_token : String)
    (meeting_name start_time duration timezone agenda settings type : JValue) :
    List Request × Except PyExc Response :=
  ZoomAPI.call st net refresh_token (fun bearer =>
    ⟨HttpMethod.post, ZoomAPI.api_url ++ "users/me/meetings",
     [("Authorization", bearer)], [],
     some [("topic", meeting_name), ("start_time", start_time),
           ("duration", duration), ("timezone", timezone),
           ("agenda", agenda), ("settings", settings), ("type", type)]⟩)

/-- Default value of the type parameter of create_meeting and update_meeting
in the source (type=2, a scheduled meeting). Passing this value models
calling with the type argument omitted. -/
def defaultMeetingType : JValue := JValue.num 2

/-- ZoomAPI.get_meetings: GET users/me/meetings. -/
def ZoomAPI.get_meetings (st : Settings) (net : Net) (refresh_token : String) :
    List Request × Except PyExc Response :=
  ZoomAPI.call st net refresh_token (fun bearer =>
    ⟨HttpMethod.get, ZoomAPI.api_url ++ "users/me/meetings",
     [("Authorization", bearer)], [], none⟩)

/-- ZoomAPI.get_meeting_details: GET meetings/ followed by the meeting id. -/
def ZoomAPI.get_meeting_details (st : Settings) (net : Net)
    (refresh_token meeting_id : String) :
    List Request × Except PyExc Response :=
  ZoomAPI.call st net refresh_token (fun bearer =>
    ⟨HttpMethod.get, ZoomAPI.api_url ++ "meetings/" ++ meeting_id,
     [("Authorization", bearer)], [], none⟩)

/-- ZoomAPI.delete_meeting: DELETE meetings/ followed by the meeting id. -/
def ZoomAPI.delete_meeting (st : Settings) (net : Net)
    (refresh_token meeting_id : String) :
    List Request × Except PyExc Response :=
  ZoomAPI.call st net refresh_token (fun bearer =>
    ⟨HttpMethod.delete, ZoomAPI.api_url ++ "meetings/" ++ meeting_id,
     [("Authorization", bearer)], [], none⟩)

/-- ZoomAPI.update_meeting: PUT meetings/ followed by the meeting id, with all
meeting fields including recurrence as JSON body. -/
def ZoomAPI.update_meeting (st : Settings) (net : Net)
    (refresh_token meeting_id : String)
    (meeting_name start_time duration timezone agenda recurrence settings type :
      JValue) :
    List Request × Except PyExc Response :=
  ZoomAPI.call st net refresh_token (fun bearer =>
    ⟨HttpMethod.put, ZoomAPI.api_url ++ "meetings/" ++ meeting_id,
     [("Authorization", bearer)], [],
     some [("topic", meeting_name), ("start_time", start_time),
           ("duration", duration), ("timezone", timezone),
           ("agenda", agenda), ("recurrence", recurrence),
           ("settings", settings), ("type", type)]⟩)

/-- ZoomAPI.update_meeting_status: PUT meetings/ followed by the meeting id,
with only the status field as JSON body. -/
def ZoomAPI.update_meeting_status (st : Settings) (net : Net)
    (refresh_token meeting_id : String) (status : JValue) :
    List Request × Except PyExc Response :=
  ZoomAPI.call st net refresh_token (fun bearer =>
    ⟨HttpMethod.put, ZoomAPI.api_url ++ "meetings/" ++ meeting_id,
     [("Authorization", bearer)], [],
     some [("status", status)]⟩)

/-- ZoomAPI.list_users: GET users. -/
def ZoomAPI.list_users (st : Settings) (net : Net) (refresh_token : String) :
    List Request × Except PyExc Response :=
  ZoomAPI.call st net refresh_token (fun bearer =>
    ⟨HttpMethod.get, ZoomAPI.api_url ++ "users",
     [("Authorization", bearer)], [], none⟩)

/-- ZoomAPI.get_user_details: GET users/ followed by the user id. -/
def ZoomAPI.get_user_details (st : Settings) (net : Net)
    (refresh_token user_id : String) :
    List Request × Except PyExc Response :=
  ZoomAPI.call st net refresh_token (fun bearer =>
    ⟨HttpMethod.get, ZoomAPI.api_url ++ "users/" ++ user_id,
     [("Authorization", bearer)], [], none⟩)

/-- ZoomAPI.check_user_email: GET users/email with the email as JSON body. -/
def ZoomAPI.check_user_email (st : Settings) (net : Net)
    (refresh_token : String) (email : JValue) :
    List Request × Except PyExc Response :=
  ZoomAPI.call st net refresh_token (fun bearer =>
    ⟨HttpMethod.get, ZoomAPI.api_url ++ "users/email",
     [("Authorization", bearer)], [],
     some [("email", email)]⟩)

/-- One invocation of a ZoomAPI operation, with its arguments. -/
inductive ApiCall where
  | get_user_zak (refresh_token : String)
  | create_meeting (refresh_token : String)
      (meeting_name start_time duration timezone agenda settings type : JValue)
  | get_meetings (refresh_token : String)
  | get_meeting_details (refresh_token meeting_id : String)
  | delete_meeting (refresh_token meeting_id : String)
  | update_meeting (refresh_token meeting_id : String)
      (meeting_name start_time duration timezone agenda recurrence settings type :
        JValue)
  | update_meeting_status (refresh_token meeting_id : String) (status : JValue)
  | list_users (refresh_token : String)
  | get_user_details (refresh_token user_id : String)
  | check_user_email (refresh_token : String) (email : JValue)

/-- Run one ZoomAPI operation against the network oracle. -/
def ApiCall.run (st : Settings) (net : Net) : ApiCall →
    List Request × Except PyExc Response
  | ApiCall.get_user_zak rt => ZoomAPI.get_user_zak st net rt
  | ApiCall.create_meeting rt mn sta d tz ag se ty =>
      ZoomAPI.create_meeting st net rt mn sta d tz ag se ty
  | ApiCall.get_meetings rt => ZoomAPI.get_meetings st net rt
  | ApiCall.get_meeting_details rt mid => ZoomAPI.get_meeting_details st net rt mid
  | ApiCall.delete_meeting rt mid => ZoomAPI.delete_meeting st net rt mid
  | ApiCall.update_meeting rt mid mn sta d tz ag rec se ty =>
      ZoomAPI.update_meeting st net rt mid mn sta d tz ag rec se ty
  | ApiCall.update_meeting_status rt mid status =>
      ZoomAPI.update_meeting_status st net rt mid status
  | ApiCall.list_users rt => ZoomAPI.list_users st net rt
  | ApiCall.get_user_details rt uid => ZoomAPI.get_user_details st net rt uid
  | ApiCall.check_user_email rt email => ZoomAPI.check_user_email st net rt email

/-- The refresh token an operation was invoked with. -/
def ApiCall.refreshToken : ApiCall → String
  | ApiCall.get_user_zak rt => rt
  | ApiCall.create_meeting rt _ _ _ _ _ _ _ => rt
  | ApiCall.get_meetings rt => rt
  | ApiCall.get_meeting_details rt _ => rt
  | ApiCall.delete_meeting rt _ => rt
  | ApiCall.update_meeting rt _ _ _ _ _ _ _ _ _ => rt
  | ApiCall.update_meeting_status rt _ _ => rt
  | ApiCall.list_users rt => rt
  | ApiCall.get_user_details rt _ => rt
  | ApiCall.check_user_email rt _ => rt

/-- Substring relation on strings, used to state what a built URL contains. -/
def strContains (s t : String) : Prop := t.data <:+: s.data

instance (s t : String) : Decidable (strContains s t) :=
  List.decidableInfix t.data s.data

/-! ## Concrete fixtures used to instantiate the theorems -/

/-- A concrete configuration. -/
def stW : Settings := ⟨"myid", "mysecret", "https://app.example.com/zoom/callback"⟩

/-- A well-behaved network oracle: every request is answered 200 with a
token-endpoint style JSON body. -/
def netW : Net := fun _ =>
  ⟨200, JValue.obj [("access_token", JValue.str "tokW"),
                    ("token_type", JValue.str "bearer"),
                    ("refresh_token", JValue.str "R2"),
                    ("expires_in", JValue.num 3600)]⟩

/-- A failing network oracle: every request is answered 400 with a Zoom-style
error body that carries no access_token field. -/
def netErr : Net := fun _ =>
  ⟨400, JValue.obj [("reason", JValue.str "Invalid Token"),
                    ("error", JValue.str "invalid_grant")]⟩

/-- A network oracle whose token endpoint works but whose resource endpoints
answer 503 with an error body. -/
def netMixed : Net := fun r =>
  if r.url = ZoomOAuth.auth_url ++ "token" then
    ⟨200, JValue.obj [("access_token", JValue.str "tokW")]⟩
  else
    ⟨503, JValue.obj [("error", JValue.str "server error")]⟩

/-! ## Helper lemmas -/

lemma call_ok (st : Settings) (net : Net) (rt : String) (mk : String → Request)
    (tok : String)
    (h : extractAccessToken (net (tokenRequest st rt)) = Except.ok tok) :
    ZoomAPI.call st net rt mk =
      ([tokenRequest st rt, mk ("Bearer " ++ tok)],
        Except.ok (net (mk ("Bearer " ++ tok)))) := by
  simp [ZoomAPI.call, ZoomOAuth.get_access_token, h]

lemma call_err (st : Settings) (net : Net) (rt : String) (mk : String → Request)
    (e : PyExc)
    (h : extractAccessToken (net (tokenRequest st rt)) = Except.error e) :
    ZoomAPI.call st net rt mk = ([tokenRequest st rt], Except.error e) := by
  simp [ZoomAPI.call, ZoomOAuth.get_access_token, h]

lemma run_ok (st : Settings) (net : Net) (c : ApiCall) (tok : String)
    (h : extractAccessToken (net (tokenRequest st c.refreshToken)) = Except.ok tok) :
    ∃ r : Request,
      c.run st net = ([tokenRequest st c.refreshToken, r], Except.ok (net r)) ∧
      (∃ rest, r.url = ZoomAPI.api_url ++ rest) ∧
      r.headers = [("Authorization", "Bearer " ++ tok)] := by
  cases c <;>
    simp only [ApiCall.run, ApiCall.refreshToken, ZoomAPI.get_user_zak,
      ZoomAPI.create_meeting, ZoomAPI.get_meetings, ZoomAPI.get_meeting_details,
      ZoomAPI.delete_meeting, ZoomAPI.update_meeting, ZoomAPI.update_meeting_status,
      ZoomAPI.list_users, ZoomAPI.get_user_details, ZoomAPI.check_user_email] at h ⊢ <;>
    exact ⟨_, call_ok _ _ _ _ _ h, ⟨_, rfl⟩, rfl⟩

lemma run_err (st : Settings) (net : Net) (c : ApiCall) (e : PyExc)
    (h : extractAccessToken (net (tokenRequest st c.refreshToken)) = Except.error e) :
    c.run st net = ([tokenRequest st c.refreshToken], Except.error e) := by
  cases c <;>
    simp only [ApiCall.run, ApiCall.refreshToken, ZoomAPI.get_user_zak,
      ZoomAPI.create_meeting, ZoomAPI.get_meetings, ZoomAPI.get_meeting_details,
      ZoomAPI.delete_meeting, ZoomAPI.update_meeting, ZoomAPI.update_meeting_status,
      ZoomAPI.list_users, ZoomAPI.get_user_details, ZoomAPI.check_user_email] at h ⊢ <;>
    exact call_err _ _ _ _ _ h

lemma basic_ne_bearer (a b : String) : "Basic " ++ a ≠ "Bearer " ++ b := by
  intro h
  have h2 := congrArg String.data h
  rw [String.data_append, String.data_append] at h2
  simp at h2

lemma urlencoded_ne_bearer (b : String) :
    ("application/x-www-form-urlencoded" : String) ≠ "Bearer " ++ b := by
  intro h
  have h2 := congrArg String.data h
  rw [String.data_append] at h2
  simp at h2

lemma request_authorization_code_eq (cid sec ruri : String) :
    (ZoomOAuth.mk ⟨cid, sec, ruri⟩).request_authorization_code =
      "https://zoom.us/oauth/authorize?client_id=" ++ cid ++
        "&response_type=code&redirect_uri=" ++ ruri := by
  apply String.ext
  simp [ZoomOAuth.request_authorization_code, ZoomOAuth.auth_url,
    String.intercalate, String.intercalate.go, String.data_append]

/-! ## Claim theorems -/

/-- C1: every ZoomAPI operation issues exactly one token-refresh POST to the
OAuth token endpoint and then exactly one HTTP request to a REST resource
endpoint, in that order and with no other requests, whenever the refresh
response carries an access token. -/
theorem apiclient_one_refresh_then_one_resource (st : Settings) (net : Net)
    (c : ApiCall) (tok : String)
    (h : extractAccessToken (net (tokenRequest st c.refreshToken)) = Except.ok tok) :
    ∃ r rest,
      (c.run st net).1 = [tokenRequest st c.refreshToken, r] ∧
      (tokenRequest st c.refreshToken).method = HttpMethod.post ∧
      (tokenRequest st c.refreshToken).url = ZoomOAuth.auth_url ++ "token" ∧
      (tokenRequest st c.refreshToken).params.lookup ("grant_type") =
        some ("refresh_token") ∧
      r.url = ZoomAPI.api_url ++ rest := by
  obtain ⟨r, hr, ⟨rest, hu⟩, -⟩ := run_ok st net c tok h
  exact ⟨r, rest, by rw [hr], rfl, rfl, rfl, hu⟩

/-- Witness for C1, on the list_users operation with a concrete oracle. -/
theorem apiclient_one_refresh_then_one_resource_witness :
    extractAccessToken (netW (tokenRequest stW "R")) = Except.ok "tokW" ∧
    ∃ r rest,
      ((ApiCall.list_users "R").run stW netW).1 = [tokenRequest stW "R", r] ∧
      (tokenRequest stW "R").method = HttpMethod.post ∧
      (tokenRequest stW "R").url = ZoomOAuth.auth_url ++ "token" ∧
      (tokenRequest stW "R").params.lookup ("grant_type") =
        some ("refresh_token") ∧
      r.url = ZoomAPI.api_url ++ rest :=
  ⟨rfl, apiclient_one_refresh_then_one_resource stW netW (ApiCall.list_users "R")
    "tokW" rfl⟩

/-- C2: both token-endpoint methods attach an Authorization header equal to
the word Basic, a space, and the Base64 encoding of the UTF-8 bytes of
client_id, a colon, and client_secret; and no header either method attaches
is of Bearer form. -/
theorem oauth_basic_auth_header (st : Settings) (net : Net) (code rt : String) :
    ((ZoomOAuth.mk st).get_first_token net code).1 = [firstTokenRequest st code] ∧
    ((ZoomOAuth.mk st).get_access_token net rt).1 = [tokenRequest st rt] ∧
    (firstTokenRequest st code).headers.lookup ("Authorization") =
      some ("Basic " ++
        base64Encode (utf8Bytes (st.ClientID ++ ":" ++ st.ClientSecret))) ∧
    (tokenRequest st rt).headers.lookup ("Authorization") =
      some ("Basic " ++
        base64Encode (utf8Bytes (st.ClientID ++ ":" ++ st.ClientSecret))) ∧
    (∀ p ∈ (firstTokenRequest st code).headers, ∀ t, p.2 ≠ "Bearer " ++ t) ∧
    (∀ p ∈ (tokenRequest st rt).headers, ∀ t, p.2 ≠ "Bearer " ++ t) := by
  refine ⟨rfl, rfl, rfl, rfl, ?_, ?_⟩ <;>
    · intro p hp t
      simp only [firstTokenRequest, tokenRequest, ZoomOAuth.oauthHeaders,
        List.mem_cons, List.not_mem_nil, or_false] at hp
      rcases hp with rfl | rfl
      · exact urlencoded_ne_bearer t
      · exact basic_ne_bearer _ t

/-- Witness for C2: the Basic credential of the concrete configuration,
evaluated byte for byte. -/
theorem oauth_basic_auth_header_witness :
    (firstTokenRequest stW "c").headers.lookup ("Authorization") =
      some ("Basic bXlpZDpteXNlY3JldA==") ∧
    (tokenRequest stW "r").headers.lookup ("Authorization") =
      some ("Basic bXlpZDpteXNlY3JldA==") :=
  ⟨(oauth_basic_auth_header stW netW "c" "r").2.2.1,
   (oauth_basic_auth_header stW netW "c" "r").2.2.2.1⟩

/-- C3 counterexample: with client secret equal to the word code, the
authorization URL contains the client secret as a substring (it collides with
the response_type=code query parameter), so the claim that the URL never
contains the secret fails as stated. -/
theorem authorize_url_contains_secret_counterexample :
    (Settings.mk "abc" "code" "https://app.example/cb").ClientSecret = "code" ∧
    strContains
      ((ZoomOAuth.mk (Settings.mk "abc" "code" "https://app.example/cb")).request_authorization_code)
      ((Settings.mk "abc" "code" "https://app.example/cb").ClientSecret) :=
  ⟨rfl, by decide⟩

/-- C3 amended: the authorization URL carries client_id, response_type=code
and the configured redirect_uri as query parameters, and the client secret is
never used in building it: the URL is identical whatever the secret is. The
secret can therefore only occur in the URL by textual collision. -/
theorem authorize_url_fields (cid sec sec2 ruri : String) :
    (ZoomOAuth.mk ⟨cid, sec, ruri⟩).request_authorization_code =
      "https://zoom.us/oauth/authorize?client_id=" ++ cid ++
        "&response_type=code&redirect_uri=" ++ ruri ∧
    (ZoomOAuth.mk ⟨cid, sec, ruri⟩).request_authorization_code =
      (ZoomOAuth.mk ⟨cid, sec2, ruri⟩).request_authorization_code :=
  ⟨request_authorization_code_eq cid sec ruri, rfl⟩

/-- C4: the end-to-end create_meeting scenario. With the type argument left
at its default, the operation issues the token refresh for the given refresh
token and then a POST to users/me/meetings whose JSON body carries
topic Standup, duration 30 and type 2, with Authorization equal to the word
Bearer, a space, and the access_token of the refresh response. -/
theorem create_meeting_scenario (st : Settings) (net : Net) (R tok : String)
    (h : extractAccessToken (net (tokenRequest st R)) = Except.ok tok) :
    ∃ r : Request,
      ZoomAPI.create_meeting st net R (JValue.str "Standup")
          (JValue.str "2024-01-01T09:00:00Z") (JValue.num 30) (JValue.str "UTC")
          (JValue.str "daily") (JValue.obj []) defaultMeetingType =
        ([tokenRequest st R, r], Except.ok (net r)) ∧
      r.method = HttpMethod.post ∧
      r.url = ZoomAPI.api_url ++ "users/me/meetings" ∧
      r.headers.lookup ("Authorization") = some ("Bearer " ++ tok) ∧
      (tokenRequest st R).params.lookup ("refresh_token") = some R ∧
      ∃ body, r.jsonBody = some body ∧
        body.lookup ("topic") = some (JValue.str "Standup") ∧
        body.lookup ("duration") = some (JValue.num 30) ∧
        body.lookup ("type") = some (JValue.num 2) := by
  exact ⟨_, call_ok st net R (fun bearer =>
      ⟨HttpMethod.post, ZoomAPI.api_url ++ "users/me/meetings",
       [("Authorization", bearer)], [],
       some [("topic", JValue.str "Standup"),
             ("start_time", JValue.str "2024-01-01T09:00:00Z"),
             ("duration", JValue.num 30), ("timezone", JValue.str "UTC"),
             ("agenda", JValue.str "daily"), ("settings", JValue.obj []),
             ("type", defaultMeetingType)]⟩) tok h,
    rfl, rfl, rfl, rfl, _, rfl, rfl, rfl, rfl⟩

/-- Witness for C4, on the concrete oracle. -/
theorem create_meeting_scenario_witness :
    extractAccessToken (netW (tokenRequest stW "R")) = Except.ok "tokW" ∧
    ∃ r : Request,
      ZoomAPI.create_meeting stW netW "R" (JValue.str "Standup")
          (JValue.str "2024-01-01T09:00:00Z") (JValue.num 30) (JValue.str "UTC")
          (JValue.str "daily") (JValue.obj []) defaultMeetingType =
        ([tokenRequest stW "R", r], Except.ok (netW r)) ∧
      r.method = HttpMethod.post ∧
      r.url = ZoomAPI.api_url ++ "users/me/meetings" ∧
      r.headers.lookup ("Authorization") = some ("Bearer tokW") ∧
      (tokenRequest stW "R").params.lookup ("refresh_token") = some "R" ∧
      ∃ body, r.jsonBody = some body ∧
        body.lookup ("topic") = some (JValue.str "Standup") ∧
        body.lookup ("duration") = some (JValue.num 30) ∧
        body.lookup ("type") = some (JValue.num 2) :=
  ⟨rfl, create_meeting_scenario stW netW "R" "tokW" rfl⟩

/-- C5: update_meeting_status issues a PUT to meetings/ followed by the
meeting id whose JSON body is exactly the status field and nothing else. -/
theorem update_meeting_status_body (st : Settings) (net : Net)
    (rt meeting_id : String) (status : JValue) (tok : String)
    (h : extractAccessToken (net (tokenRequest st rt)) = Except.ok tok) :
    ∃ r : Request,
      ZoomAPI.update_meeting_status st net rt meeting_id status =
        ([tokenRequest st rt, r], Except.ok (net r)) ∧
      r.method = HttpMethod.put ∧
      r.url = ZoomAPI.api_url ++ "meetings/" ++ meeting_id ∧
      r.jsonBody = some [("status", status)] := by
  exact ⟨_, call_ok st net rt (fun bearer =>
      ⟨HttpMethod.put, ZoomAPI.api_url ++ "meetings/" ++ meeting_id,
       [("Authorization", bearer)], [], some [("status", status)]⟩) tok h,
    rfl, rfl, rfl⟩

/-- Witness for C5, at meeting id 123 and status end. -/
theorem update_meeting_status_body_witness :
    extractAccessToken (netW (tokenRequest stW "R")) = Except.ok "tokW" ∧
    ∃ r : Request,
      ZoomAPI.update_meeting_status stW netW "R" "123" (JValue.str "end") =
        ([tokenRequest stW "R", r], Except.ok (netW r)) ∧
      r.method = HttpMethod.put ∧
      r.url = "https://api.zoom.us/v2/meetings/123" ∧
      r.jsonBody = some [("status", JValue.str "end")] :=
  ⟨rfl, update_meeting_status_body stW netW "R" "123" (JValue.str "end") "tokW" rfl⟩

/-- C6 counterexample: when the token-refresh call is answered 400 with an
error body that has no access_token field, get_user_zak raises a KeyError
instead of returning a response object, so the claim that no operation ever
raises on a non-2xx response fails as stated. -/
theorem non2xx_refresh_raises_counterexample :
    (netErr (tokenRequest stW "R")).status = 400 ∧
    (ZoomAPI.get_user_zak stW netErr "R").2 =
      Except.error (PyExc.keyError "access_token") ∧
    (ZoomAPI.get_user_zak stW netErr "R").1 = [tokenRequest stW "R"] :=
  ⟨rfl, rfl, rfl⟩

/-- C6 amended: a non-2xx response from the resource call is returned to the
caller unraised, whatever its status; but when the token-refresh response
body yields no access token (as with a 4xx error body), the operation raises
the extraction error instead of returning the refresh response. -/
theorem non2xx_resource_returned (st : Settings) (net : Net) (c : ApiCall) :
    (∀ tok, extractAccessToken (net (tokenRequest st c.refreshToken)) = Except.ok tok →
      ∃ r, c.run st net = ([tokenRequest st c.refreshToken, r], Except.ok (net r))) ∧
    (∀ e, extractAccessToken (net (tokenRequest st c.refreshToken)) = Except.error e →
      c.run st net = ([tokenRequest st c.refreshToken], Except.error e)) := by
  constructor
  · intro tok h
    obtain ⟨r, hr, -, -⟩ := run_ok st net c tok h
    exact ⟨r, hr⟩
  · intro e h
    exact run_err st net c e h

/-- Witness for C6 amended: a 503 from the resource endpoint is returned as
the operation result, not raised. -/
theorem non2xx_resource_returned_witness :
    (∃ r, (ApiCall.get_meetings "R").run stW netMixed =
      ([tokenRequest stW "R", r], Except.ok (netMixed r))) ∧
    (netMixed (⟨HttpMethod.get, ZoomAPI.api_url ++ "users/me/meetings",
      [("Authorization", "Bearer tokW")], [], none⟩ : Request)).status = 503 :=
  ⟨(non2xx_resource_returned stW netMixed (ApiCall.get_meetings "R")).1 "tokW" rfl,
   rfl⟩

/-- C7 counterexample: when the token endpoint answers the code exchange with
a 400 error response, get_first_token does not fail with any exception: it
returns the raw 400 response as its ordinary value, so the claim that it
fails with an AuthError fails as stated (no AuthError exists in the code). -/
theorem code_exchange_no_autherror_counterexample :
    (ZoomOAuth.mk stW).get_first_token netErr "badcode" =
      ([firstTokenRequest stW "badcode"],
        netErr (firstTokenRequest stW "badcode")) ∧
    (netErr (firstTokenRequest stW "badcode")).status = 400 ∧
    ((ZoomOAuth.mk stW).get_first_token netErr "badcode").2.body =
      JValue.obj [("reason", JValue.str "Invalid Token"),
                  ("error", JValue.str "invalid_grant")] :=
  ⟨rfl, rfl, rfl⟩

/-- C7 amended: for every code and every provider answer, 4xx included,
get_first_token issues one POST carrying the code and the authorization_code
grant type and returns the provider response verbatim, raw error body and
status included, without raising. -/
theorem code_exchange_returns_raw_response (st : Settings) (net : Net)
    (code : String) :
    (ZoomOAuth.mk st).get_first_token net code =
      ([firstTokenRequest st code], net (firstTokenRequest st code)) ∧
    (firstTokenRequest st code).params.lookup ("code") = some code ∧
    (firstTokenRequest st code).params.lookup ("grant_type") =
      some ("authorization_code") :=
  ⟨rfl, rfl, rfl⟩

/-- C8: update_meeting issues a PUT to meetings/ followed by the meeting id
whose JSON body carries every meeting field, recurrence included: a full
replace, not a partial patch. -/
theorem update_meeting_full_replace (st : Settings) (net : Net)
    (rt meeting_id : String)
    (mn sta d tz ag rec se ty : JValue) (tok : String)
    (h : extractAccessToken (net (tokenRequest st rt)) = Except.ok tok) :
    ∃ r : Request,
      ZoomAPI.update_meeting st net rt meeting_id mn sta d tz ag rec se ty =
        ([tokenRequest st rt, r], Except.ok (net r)) ∧
      r.method = HttpMethod.put ∧
      r.url = ZoomAPI.api_url ++ "meetings/" ++ meeting_id ∧
      r.jsonBody = some [("topic", mn), ("start_time", sta), ("duration", d),
        ("timezone", tz), ("agenda", ag), ("recurrence", rec),
        ("settings", se), ("type", ty)] := by
  exact ⟨_, call_ok st net rt (fun bearer =>
      ⟨HttpMethod.put, ZoomAPI.api_url ++ "meetings/" ++ meeting_id,
       [("Authorization", bearer)], [],
       some [("topic", mn), ("start_time", sta), ("duration", d),
             ("timezone", tz), ("agenda", ag), ("recurrence", rec),
             ("settings", se), ("type", ty)]⟩) tok h,
    rfl, rfl, rfl⟩

/-- Witness for C8, on the concrete oracle. -/
theorem update_meeting_full_replace_witness :
    extractAccessToken (netW (tokenRequest stW "R")) = Except.ok "tokW" ∧
    ∃ r : Request,
      ZoomAPI.update_meeting stW netW "R" "123" (JValue.str "Standup")
          (JValue.str "2024-01-01T09:00:00Z") (JValue.num 30) (JValue.str "UTC")
          (JValue.str "daily") (JValue.null) (JValue.obj []) defaultMeetingType =
        ([tokenRequest stW "R", r], Except.ok (netW r)) ∧
      r.method = HttpMethod.put ∧
      r.url = ZoomAPI.api_url ++ "meetings/" ++ "123" ∧
      r.jsonBody = some [("topic", JValue.str "Standup"),
        ("start_time", JValue.str "2024-01-01T09:00:00Z"),
        ("duration", JValue.num 30), ("timezone", JValue.str "UTC"),
        ("agenda", JValue.str "daily"), ("recurrence", JValue.null),
        ("settings", JValue.obj []), ("type", JValue.num 2)] :=
  ⟨rfl, update_meeting_full_replace stW netW "R" "123" (JValue.str "Standup")
    (JValue.str "2024-01-01T09:00:00Z") (JValue.num 30) (JValue.str "UTC")
    (JValue.str "daily") (JValue.null) (JValue.obj []) defaultMeetingType
    "tokW" rfl⟩

/-- C9: check_user_email issues, after the token refresh, exactly one GET to
users/email whose only request datum besides the Authorization header is the
email, carried in the JSON body; the query-parameter dict is empty. -/
theorem check_user_email_request (st : Settings) (net : Net) (rt : String)
    (email : JValue) (tok : String)
    (h : extractAccessToken (net (tokenRequest st rt)) = Except.ok tok) :
    ∃ r : Request,
      ZoomAPI.check_user_email st net rt email =
        ([tokenRequest st rt, r], Except.ok (net r)) ∧
      (tokenRequest st rt).method = HttpMethod.post ∧
      r.method = HttpMethod.get ∧
      r.url = ZoomAPI.api_url ++ "users/email" ∧
      r.headers = [("Authorization", "Bearer " ++ tok)] ∧
      r.params = [] ∧
      r.jsonBody = some [("email", email)] := by
  exact ⟨_, call_ok st net rt (fun bearer =>
      ⟨HttpMethod.get, ZoomAPI.api_url ++ "users/email",
       [("Authorization", bearer)], [], some [("email", email)]⟩) tok h,
    rfl, rfl, rfl, rfl, rfl, rfl⟩

/-- Witness for C9, on the concrete oracle. -/
theorem check_user_email_request_witness :
    extractAccessToken (netW (tokenRequest stW "R")) = Except.ok "tokW" ∧
    ∃ r : Request,
      ZoomAPI.check_user_email stW netW "R" (JValue.str "a@b.example") =
        ([tokenRequest stW "R", r], Except.ok (netW r)) ∧
      (tokenRequest stW "R").method = HttpMethod.post ∧
      r.method = HttpMethod.get ∧
      r.url = ZoomAPI.api_url ++ "users/email" ∧
      r.headers = [("Authorization", "Bearer tokW")] ∧
      r.params = [] ∧
      r.jsonBody = some [("email", JValue.str "a@b.example")] :=
  ⟨rfl, check_user_email_request stW netW "R" (JValue.str "a@b.example")
    "tokW" rfl⟩

/-- C10: the authorization URL is built by raw concatenation of key=value
pairs joined with ampersands with no percent-encoding, so the configured
client_id and redirect_uri appear verbatim in the returned URL whatever
characters they contain. -/
theorem authorize_url_raw_concatenation (cid sec ruri : String) :
    (ZoomOAuth.mk ⟨cid, sec, ruri⟩).request_authorization_code =
      "https://zoom.us/oauth/authorize?client_id=" ++ cid ++
        "&response_type=code&redirect_uri=" ++ ruri ∧
    (∃ pre post, (ZoomOAuth.mk ⟨cid, sec, ruri⟩).request_authorization_code =
      pre ++ cid ++ post) ∧
    (∃ pre2, (ZoomOAuth.mk ⟨cid, sec, ruri⟩).request_authorization_code =
      pre2 ++ ruri) := by
  refine ⟨request_authorization_code_eq cid sec ruri,
    ⟨"https://zoom.us/oauth/authorize?client_id=",
     "&response_type=code&redirect_uri=" ++ ruri, ?_⟩,
    ⟨"https://zoom.us/oauth/authorize?client_id=" ++ cid ++
       "&response_type=code&redirect_uri=",
     request_authorization_code_eq cid sec ruri⟩⟩
  rw [request_authorization_code_eq cid sec ruri]
  apply String.ext
  simp [String.data_append, List.append_assoc]

end Zoom
